import Mathlib

/-!
Verification development for the wine-collection inventory tracker.

The definitions below are a shallow embedding of the repository's query and
mutation layer:

* `matchesFilters` embeds `apply_filters` from `app/api/endpoints/wines.py`
  (the filter used by the `GET /api/wines` and `GET /api/wines/page` handlers);
* `matchesWineFilters` embeds `apply_wine_filters` from
  `app/common/queries.py` (the shared query-builder module, which the
  endpoints do not import);
* `listWines` and `listWinesPage` embed the `list_wines` and
  `list_wines_page` handlers;
* `updateWineQuantity` and `consumeWine` embed the
  `update_wine_quantity` and `consume_wine` handlers over an explicit
  database state (`DBState`);
* `validateWineCreate` embeds the pydantic field constraints plus the
  `validate_dates_and_grapes` model validator of `WineCreateRequest` in
  `app/schemas.py`.

Modelling conventions: SQL dates are embedded as `Int` day numbers and
`date.today()` is passed in as the `today` parameter; nullable columns are
`Option`s and an SQL comparison against `NULL` is never satisfied (three-valued
logic, with no negation present in any of the embedded queries); the
`quantity` column is `Option Nat`, reflecting the `ck_wines_quantity_non_negative`
check constraint in `app/models.py`; `float` percentages are embedded as `ℚ`;
Python string truthiness is the test against `""`; `str.lower`/`str.strip`
are embedded character-wise (`lowerStr`/`trimStr`); `ILIKE '%term%'` is
case-insensitive substring containment; SQL `ORDER BY` is a stable sort by
the requested key, with `NULL`s first in ascending order.  Row timestamps and
system-assigned row ids are not modelled (no embedded claim depends on them),
and the grape-composition rows attached to responses are omitted from the
list projections, since they are copied verbatim from a separate table.
-/

/-- One character of Python's `str.lower` (ASCII case folding, which is all the
wine data uses). -/
def lowerStr (s : String) : String := ⟨s.data.map Char.toLower⟩

/-- Whitespace recognised by Python's `str.strip`. -/
def isPyWS (c : Char) : Bool :=
  c = ' ' || c = '\t' || c = '\n' || c = '\r' || c = '\x0b' || c = '\x0c'

/-- Python's `str.strip`: drop leading and trailing whitespace. -/
def trimStr (s : String) : String :=
  ⟨((s.data.dropWhile isPyWS).reverse.dropWhile isPyWS).reverse⟩

/-- Byte-order comparison of characters (SQLite's binary collation on ASCII). -/
def charLe (a b : Char) : Bool := a.toNat ≤ b.toNat

/-- Lexicographic byte-order comparison of character lists. -/
def charListLe : List Char → List Char → Bool
  | [], _ => true
  | _ :: _, [] => false
  | a :: as, b :: bs => if a = b then charListLe as bs else charLe a b

/-- Lexicographic comparison of strings (binary collation). -/
def strLe (a b : String) : Bool := charListLe a.data b.data

/-- `ILIKE '%needle%'`: case-insensitive substring containment. -/
def containsCI (hay : String) (needle : String) : Bool :=
  decide ((lowerStr needle).data <:+: (lowerStr hay).data)

/-- Python truthiness of an optional string: present and non-empty. -/
def strTruthy : Option String → Bool
  | none => false
  | some s => decide (¬ (s = ""))

/-- A row of the `wines` table (`app/models.py`), with the nullable columns as
`Option`s and dates as day numbers. -/
structure Wine where
  id : Int
  name : String
  type : Option String
  producer : Option String
  vintage : Option Int
  country : Option String
  district : Option String
  subdistrict : Option String
  purchase_price : Option ℚ
  quantity : Option Nat
  drink_after_date : Option Int
  drink_before_date : Option Int
deriving Repr, DecidableEq

/-- The filter parameters shared by `list_wines` and `list_wines_page`
(`search_term`, `wine_type`, `vintage`, `country`, `district`, `subdistrict`,
`drinking_window_status`), all optional. -/
structure FilterSpec where
  search_term : Option String
  wine_type : Option String
  vintage : Option Int
  country : Option String
  district : Option String
  subdistrict : Option String
  drinking_window_status : Option String
deriving Repr, DecidableEq

/-- SQL `col <= v` on a nullable column: `NULL` never matches. -/
def optLeB : Option Int → Int → Bool
  | none, _ => false
  | some a, v => decide (a ≤ v)

/-- SQL `col >= v` on a nullable column: `NULL` never matches. -/
def optGeB : Option Int → Int → Bool
  | none, _ => false
  | some a, v => decide (v ≤ a)

/-- SQL `col > v` on a nullable column: `NULL` never matches. -/
def optGtB : Option Int → Int → Bool
  | none, _ => false
  | some a, v => decide (v < a)

/-- SQL `quantity > 0` on the nullable quantity column: `NULL` never matches. -/
def optPosB : Option Nat → Bool
  | none => false
  | some n => decide (0 < n)

/-- `Wine.name.ilike(like) | Wine.producer.ilike(like)` with
`like = f"%{search_term}%"`; a `NULL` producer never matches. -/
def searchMatches (term : String) (w : Wine) : Bool :=
  containsCI w.name term ||
    (match w.producer with
     | some p => containsCI p term
     | none => false)

/-- The six non-date filters shared verbatim by `apply_filters`
(`app/api/endpoints/wines.py`) and `apply_wine_filters`
(`app/common/queries.py`).  Each is applied only when the parameter is truthy
(for `vintage`: not `None`). -/
def matchesBaseFilters (f : FilterSpec) (w : Wine) : Bool :=
  (match f.search_term with
   | none => true
   | some t => if t = "" then true else searchMatches t w) &&
  (match f.wine_type with
   | none => true
   | some ty => if ty = "" then true else w.type == some ty) &&
  (match f.vintage with
   | none => true
   | some v => w.vintage == some v) &&
  (match f.country with
   | none => true
   | some c => if c = "" then true else w.country == some c) &&
  (match f.district with
   | none => true
   | some d => if d = "" then true else w.district == some d) &&
  (match f.subdistrict with
   | none => true
   | some sd => if sd = "" then true else w.subdistrict == some sd)

/-- The drinking-window clause of `apply_filters` in
`app/api/endpoints/wines.py` (lines 50-72): date bounds only, no
`isnot(None)` guards (implied by SQL three-valued logic) and no quantity
filter; an unrecognised status value falls through every branch and adds no
filter at all. -/
def dwsFilterEndpoint (today : Int) (dws : Option String) (w : Wine) : Bool :=
  match dws with
  | none => true
  | some s =>
    if s = "" then true
    else if s = "ready_to_drink" then
      optLeB w.drink_after_date today && optGeB w.drink_before_date today
    else if s = "approaching_deadline" then
      optLeB w.drink_before_date (today + 30) && optGeB w.drink_before_date today
    else if s = "not_ready" then
      optGtB w.drink_after_date today
    else true

/-- The drinking-window clause of `apply_wine_filters` in
`app/common/queries.py` (lines 84-117): explicit `isnot(None)` guards plus the
`Wine.quantity > 0` filter, which is appended for every truthy status value
(it sits outside the `if/elif` chain, line 116). -/
def dwsFilterCommon (today : Int) (dws : Option String) (w : Wine) : Bool :=
  match dws with
  | none => true
  | some s =>
    if s = "" then true
    else
      (if s = "ready_to_drink" then
        w.drink_after_date.isSome && w.drink_before_date.isSome &&
          optLeB w.drink_after_date today && optGeB w.drink_before_date today
      else if s = "approaching_deadline" then
        w.drink_before_date.isSome &&
          optLeB w.drink_before_date (today + 30) && optGeB w.drink_before_date today
      else if s = "not_ready" then
        w.drink_after_date.isSome && optGtB w.drink_after_date today
      else true) &&
      optPosB w.quantity

/-- The complete row predicate of `apply_filters`
(`app/api/endpoints/wines.py`), the filter actually used by both list
endpoints. -/
def matchesFilters (today : Int) (f : FilterSpec) (w : Wine) : Bool :=
  matchesBaseFilters f w && dwsFilterEndpoint today f.drinking_window_status w

/-- The complete row predicate of `apply_wine_filters`
(`app/common/queries.py`). -/
def matchesWineFilters (today : Int) (f : FilterSpec) (w : Wine) : Bool :=
  matchesBaseFilters f w && dwsFilterCommon today f.drinking_window_status w

/-- The `sort_by` whitelist enforced by
`Query("id", pattern="^(id|name|producer|vintage|type)$")`. -/
def validSortBy (s : String) : Bool :=
  s = "id" || s = "name" || s = "producer" || s = "vintage" || s = "type"

/-- The `sort_order` whitelist enforced by
`Query("desc", pattern="^(asc|desc)$")`. -/
def validSortOrder (s : String) : Bool := s = "asc" || s = "desc"

/-- Comparison of two optional strings, `NULL`s first. -/
def optStrLe : Option String → Option String → Bool
  | none, _ => true
  | some _, none => false
  | some a, some b => strLe a b

/-- Comparison of two optional integers, `NULL`s first. -/
def optIntLe : Option Int → Option Int → Bool
  | none, _ => true
  | some _, none => false
  | some a, some b => decide (a ≤ b)

/-- Ascending comparison by the whitelisted sort field (the `sort_field`
dictionary in `list_wines_page`). -/
def wineFieldLe (sort_by : String) (a b : Wine) : Bool :=
  if sort_by = "name" then strLe a.name b.name
  else if sort_by = "producer" then optStrLe a.producer b.producer
  else if sort_by = "vintage" then optIntLe a.vintage b.vintage
  else if sort_by = "type" then optStrLe a.type b.type
  else decide (a.id ≤ b.id)

/-- The requested row order: `sort_field.desc()` when `sort_order == "desc"`,
`sort_field.asc()` otherwise. -/
def wineLe (sort_by sort_order : String) (a b : Wine) : Bool :=
  if sort_order = "desc" then wineFieldLe sort_by b a else wineFieldLe sort_by a b

/-- `ORDER BY` as a stable sort of the row list. -/
def sortWines (sort_by sort_order : String) (l : List Wine) : List Wine :=
  List.insertionSort (fun a b => wineLe sort_by sort_order a b = true) l

/-- The `GET /api/wines` handler `list_wines`: filter with `apply_filters`,
order by `Wine.id.desc()`. -/
def listWines (today : Int) (wines : List Wine) (f : FilterSpec) : List Wine :=
  sortWines "id" "desc" (wines.filter (matchesFilters today f))

/-- A `WineListItem` of `app/schemas.py` (the detail-only fields and the
composition rows, copied verbatim from their own table, are omitted from the
embedding). -/
structure WineListItem where
  id : Int
  name : String
  producer : Option String
  vintage : Option Int
  type : Option String
  quantity : Option Nat
deriving Repr, DecidableEq

/-- Projection of a row to its list-page item. -/
def toListItem (w : Wine) : WineListItem :=
  { id := w.id, name := w.name, producer := w.producer, vintage := w.vintage,
    type := w.type, quantity := w.quantity }

/-- The `WineListPageResponse` payload of `app/schemas.py`. -/
structure WineListPageResponse where
  items : List WineListItem
  page : Nat
  page_size : Nat
  total_items : Nat
  total_pages : Nat
deriving Repr, DecidableEq

/-- Caller-visible failure categories: `notFound` is the 404 outcome,
`badRequest` the 400 outcome raised inside a handler, and `validationError`
the 422 outcome produced by the framework's `Query` parameter constraints.
The constructors are distinct by construction. -/
inductive ApiError where
  | notFound
  | badRequest (detail : String)
  | validationError (detail : String)
deriving Repr, DecidableEq

/-- The `GET /api/wines/page` handler `list_wines_page`.  The framework first
enforces `page >= 1`, `1 <= page_size <= 100` and the two sort regexes
(`drinking_window_status` carries no constraint); the handler then filters,
sorts, counts and paginates.  Note that the count statement on line 150 of
`app/api/endpoints/wines.py` re-applies the filters WITHOUT the
`drinking_window_status` argument, which therefore defaults to `None`. -/
def listWinesPage (today : Int) (wines : List Wine) (page page_size : Nat)
    (sort_by sort_order : String) (f : FilterSpec) :
    Except ApiError WineListPageResponse :=
  if page < 1 then .error (.validationError "page must be at least 1")
  else if page_size < 1 ∨ 100 < page_size then
    .error (.validationError "page_size must be between 1 and 100")
  else if !validSortBy sort_by then
    .error (.validationError "sort_by must be one of id, name, producer, vintage, type")
  else if !validSortOrder sort_order then
    .error (.validationError "sort_order must be asc or desc")
  else
    .ok
      { items :=
          (((sortWines sort_by sort_order (wines.filter (matchesFilters today f))).drop
              ((page - 1) * page_size)).take page_size).map toListItem,
        page := page,
        page_size := page_size,
        total_items :=
          (wines.filter (matchesFilters today
            { f with drinking_window_status := none })).length,
        total_pages :=
          ((wines.filter (matchesFilters today
            { f with drinking_window_status := none })).length + page_size - 1) /
            page_size }

/-- The full filtered, sorted result set of a page query, projected to list
items: what concatenating all pages should reproduce. -/
def pageItemsList (today : Int) (wines : List Wine) (sort_by sort_order : String)
    (f : FilterSpec) : List WineListItem :=
  (sortWines sort_by sort_order (wines.filter (matchesFilters today f))).map toListItem

/-- A row of the `inventory_logs` table (`app/models.py`); the system-assigned
id and the creation timestamp are not modelled. -/
structure InventoryLog where
  wine_id : Int
  change_type : String
  quantity_change : Int
  new_quantity : Int
  notes : Option String
deriving Repr, DecidableEq

/-- A row of the `tasting_notes` table (`app/models.py`); the system-assigned
id and the creation timestamp are not modelled. -/
structure TastingNote where
  wine_id : Int
  user_id : Int
  rating : Option Int
  notes : Option String
deriving Repr, DecidableEq

/-- The relational state the mutation handlers act on. -/
structure DBState where
  wines : List Wine
  inventory_logs : List InventoryLog
  tasting_notes : List TastingNote
deriving Repr, DecidableEq

/-- `select(Wine).where(Wine.id == wine_id)` followed by
`scalar_one_or_none()` (ids are the primary key, hence unique). -/
def findWine (st : DBState) (wine_id : Int) : Option Wine :=
  st.wines.find? (fun w => w.id == wine_id)

/-- Persisting `wine.quantity = q` on the row with the given id. -/
def setWineQuantity (wines : List Wine) (wine_id : Int) (q : Nat) : List Wine :=
  wines.map (fun w => if w.id == wine_id then { w with quantity := some q } else w)

/-- The `WineQuantityUpdateRequest` payload of `app/schemas.py`:
an unconstrained signed delta plus optional notes. -/
structure WineQuantityUpdateRequest where
  quantity_change : Int
  notes : Option String
deriving Repr, DecidableEq

/-- The `PATCH /api/wines/{id}/quantity` handler `update_wine_quantity`:
load the wine (404 when absent), compute
`new_quantity = (wine.quantity or 0) + payload.quantity_change`, reject a
negative result with a 400 before any write, otherwise store the new quantity
and append exactly one `manual_adjustment` log row in the same commit. -/
def updateWineQuantity (st : DBState) (wine_id : Int)
    (payload : WineQuantityUpdateRequest) : DBState × Except ApiError Wine :=
  match findWine st wine_id with
  | none => (st, .error .notFound)
  | some wine =>
    if ((wine.quantity.getD 0 : Int) + payload.quantity_change) < 0 then
      (st, .error (.badRequest "Quantity change would result in negative quantity"))
    else
      ({ st with
          wines := setWineQuantity st.wines wine_id
            ((wine.quantity.getD 0 : Int) + payload.quantity_change).toNat,
          inventory_logs := st.inventory_logs ++
            [{ wine_id := wine_id, change_type := "manual_adjustment",
               quantity_change := payload.quantity_change,
               new_quantity := (wine.quantity.getD 0 : Int) + payload.quantity_change,
               notes := payload.notes }] },
       .ok { wine with
              quantity :=
                some ((wine.quantity.getD 0 : Int) + payload.quantity_change).toNat })

/-- The `TastingNoteCreateRequest` payload of `app/schemas.py`. -/
structure TastingNoteCreateRequest where
  rating : Option Int
  notes : Option String
deriving Repr, DecidableEq

/-- The log row written by `consume_wine`: fixed change type, delta and
notes. -/
def consumeLog (wine_id : Int) (new_quantity : Nat) : InventoryLog :=
  { wine_id := wine_id, change_type := "consume", quantity_change := -1,
    new_quantity := (new_quantity : Int), notes := some "Bottle consumed" }

/-- The tasting-note branch of `consume_wine`:
`if tasting_request and (tasting_request.rating is not None or tasting_request.notes)`,
with the placeholder `user_id = 1`. -/
def mkTastingNote (wine_id : Int)
    (tasting_request : Option TastingNoteCreateRequest) : Option TastingNote :=
  match tasting_request with
  | none => none
  | some r =>
    if r.rating.isSome || strTruthy r.notes then
      some { wine_id := wine_id, user_id := 1, rating := r.rating, notes := r.notes }
    else none

/-- The `POST /api/wines/{id}/consume` response payload. -/
structure WineConsumptionResponse where
  wine : Wine
  inventory_log : InventoryLog
  tasting_note : Option TastingNote
deriving Repr, DecidableEq

/-- The `POST /api/wines/{id}/consume` handler `consume_wine`: load the wine
(404 when absent), reject `(wine.quantity or 0) <= 0` with a 400 before any
write, otherwise decrement the quantity by one, append exactly one `consume`
log row, and create a tasting note exactly when the payload carries a rating
or truthy notes — all in the same commit. -/
def consumeWine (st : DBState) (wine_id : Int)
    (tasting_request : Option TastingNoteCreateRequest) :
    DBState × Except ApiError WineConsumptionResponse :=
  match findWine st wine_id with
  | none => (st, .error .notFound)
  | some wine =>
    if wine.quantity.getD 0 ≤ 0 then
      (st, .error (.badRequest "Cannot consume wine: quantity is already 0"))
    else
      ({ st with
          wines := setWineQuantity st.wines wine_id (wine.quantity.getD 0 - 1),
          inventory_logs :=
            st.inventory_logs ++ [consumeLog wine_id (wine.quantity.getD 0 - 1)],
          tasting_notes :=
            st.tasting_notes ++ (mkTastingNote wine_id tasting_request).toList },
       .ok { wine := { wine with quantity := some (wine.quantity.getD 0 - 1) },
             inventory_log := consumeLog wine_id (wine.quantity.getD 0 - 1),
             tasting_note := mkTastingNote wine_id tasting_request })

/-- One entry of the `grape_composition` list in a creation request
(`GrapeCompositionSchema` in `app/schemas.py`). -/
structure GrapeCompositionSchema where
  grape_variety : String
  percentage : ℚ
deriving Repr, DecidableEq

/-- The `WineCreateRequest` payload of `app/schemas.py`. -/
structure WineCreateRequest where
  name : String
  type : Option String
  producer : Option String
  vintage : Option Int
  country : Option String
  district : Option String
  subdistrict : Option String
  purchase_price : Option ℚ
  quantity : Option Nat
  drink_after_date : Option Int
  drink_before_date : Option Int
  grape_composition : Option (List GrapeCompositionSchema)
deriving Repr, DecidableEq

/-- Length bound on an optional string field. -/
def optLenLe (o : Option String) (n : Nat) : Bool :=
  match o with
  | none => true
  | some s => decide (s.length ≤ n)

/-- The declarative per-field constraints of `WineCreateRequest`
(`Field(min_length=..., max_length=..., ge=..., le=...)`), which pydantic
checks before the model validator runs. -/
def fieldConstraintsOk (r : WineCreateRequest) : Bool :=
  decide (1 ≤ r.name.length) && decide (r.name.length ≤ 255) &&
  optLenLe r.producer 255 &&
  (match r.vintage with
   | none => true
   | some v => decide (1800 ≤ v) && decide (v ≤ 2100)) &&
  optLenLe r.country 100 && optLenLe r.district 100 && optLenLe r.subdistrict 100 &&
  (match r.purchase_price with
   | none => true
   | some p => decide ((0 : ℚ) ≤ p)) &&
  (match r.grape_composition with
   | none => true
   | some gcs =>
     gcs.all (fun g =>
       decide (1 ≤ g.grape_variety.length) && decide (g.grape_variety.length ≤ 100) &&
       decide ((0 : ℚ) ≤ g.percentage) && decide (g.percentage ≤ 100)))

/-- Python's `gc.grape_variety.strip().lower()` used to detect duplicate
varieties. -/
def normVariety (v : String) : String := lowerStr (trimStr v)

/-- Creation-time validation of `WineCreateRequest`: the pydantic field
constraints followed by the `validate_dates_and_grapes` model validator
(`app/schemas.py` lines 30-43): reject `drink_after_date >= drink_before_date`
when both dates are present; for a non-empty composition reject a percentage
sum outside `100 ± 0.5` and then duplicate varieties after strip+lower
(`len(set(varieties)) != len(varieties)`). -/
def validateWineCreate (r : WineCreateRequest) :
    Except String WineCreateRequest :=
  if fieldConstraintsOk r = false then .error "field constraint violated"
  else if (match r.drink_after_date, r.drink_before_date with
           | some a, some b => decide (b ≤ a)
           | _, _ => false) = true then
    .error "drink_before_date must be later than drink_after_date"
  else
    match r.grape_composition with
    | none => .ok r
    | some gcs =>
      if gcs.length = 0 then .ok r
      else if |(gcs.map (fun g => g.percentage)).sum - 100| > (1 / 2 : ℚ) then
        .error "Sum of grape composition percentages must be approximately 100"
      else if (gcs.map (fun g => normVariety g.grape_variety)).dedup.length ≠
          (gcs.map (fun g => normVariety g.grape_variety)).length then
        .error "Duplicate grape varieties are not allowed in grape_composition"
      else .ok r

/-! Concrete fixtures used by the evaluation theorems, counterexamples and
witnesses below. -/

/-- The empty filter specification (no query parameter supplied). -/
def noFilter : FilterSpec :=
  { search_term := none, wine_type := none, vintage := none, country := none,
    district := none, subdistrict := none, drinking_window_status := none }

/-- Only `drinking_window_status=ready_to_drink` supplied. -/
def readyFilter : FilterSpec :=
  { noFilter with drinking_window_status := some "ready_to_drink" }

/-- An unrecognised `drinking_window_status` value. -/
def bogusFilter : FilterSpec :=
  { noFilter with drinking_window_status := some "overdue" }

/-- A stocked wine with no drinking-window dates. -/
def datelessWine : Wine :=
  { id := 1, name := "Barolo", type := some "Red", producer := none,
    vintage := some 2015, country := none, district := none, subdistrict := none,
    purchase_price := none, quantity := some 5,
    drink_after_date := none, drink_before_date := none }

/-- A wine inside its drinking window around day 0, with zero stock. -/
def zeroQtyWine : Wine :=
  { id := 1, name := "Empty", type := none, producer := none, vintage := none,
    country := none, district := none, subdistrict := none,
    purchase_price := none, quantity := some 0,
    drink_after_date := some (-1), drink_before_date := some 1 }

/-- A wine inside its drinking window on the given day, with three bottles. -/
def wineInWindow (today : Int) : Wine :=
  { id := 1, name := "Ready", type := none, producer := none, vintage := none,
    country := none, district := none, subdistrict := none,
    purchase_price := none, quantity := some 3,
    drink_after_date := some (today - 1), drink_before_date := some (today + 1) }

/-- A wine with four bottles in stock. -/
def wineBarolo : Wine :=
  { id := 1, name := "Barolo", type := some "Red", producer := none,
    vintage := some 2015, country := some "Italy", district := none,
    subdistrict := none, purchase_price := none, quantity := some 4,
    drink_after_date := none, drink_before_date := none }

/-- A wine whose quantity column is NULL. -/
def nullQtyWine : Wine :=
  { id := 1, name := "Unknown stock", type := none, producer := none,
    vintage := none, country := none, district := none, subdistrict := none,
    purchase_price := none, quantity := none,
    drink_after_date := none, drink_before_date := none }

/-- Database state holding just `wineBarolo`. -/
def stBarolo : DBState :=
  { wines := [wineBarolo], inventory_logs := [], tasting_notes := [] }

/-- Database state holding just `zeroQtyWine`. -/
def stZero : DBState :=
  { wines := [zeroQtyWine], inventory_logs := [], tasting_notes := [] }

/-- Database state holding just `nullQtyWine`. -/
def stNull : DBState :=
  { wines := [nullQtyWine], inventory_logs := [], tasting_notes := [] }

/-- A creation request whose two variety names differ only by surrounding
whitespace (case-insensitively distinct as written). -/
def dupeVarietyRequest : WineCreateRequest :=
  { name := "Blend", type := none, producer := none, vintage := none,
    country := none, district := none, subdistrict := none,
    purchase_price := none, quantity := none, drink_after_date := none,
    drink_before_date := none,
    grape_composition := some [{ grape_variety := " Merlot", percentage := 50 },
                               { grape_variety := "Merlot", percentage := 50 }] }

/-- A creation request with a valid single-variety composition. -/
def goodCreateRequest : WineCreateRequest :=
  { name := "Barolo", type := some "Red", producer := none, vintage := some 2015,
    country := none, district := none, subdistrict := none,
    purchase_price := none, quantity := some 6, drink_after_date := none,
    drink_before_date := none,
    grape_composition := some [{ grape_variety := "Nebbiolo", percentage := 100 }] }

/-- A creation request whose percentages sum to 94. -/
def sum94Request : WineCreateRequest :=
  { goodCreateRequest with
    grape_composition := some [{ grape_variety := "Nebbiolo", percentage := 94 }] }

/-! Helper lemmas shared by the claim theorems. -/

theorem optLeB_eq_true {o : Option Int} {t : Int} :
    optLeB o t = true ↔ ∃ a, o = some a ∧ a ≤ t := by
  cases o <;> simp [optLeB]

theorem optGeB_eq_true {o : Option Int} {t : Int} :
    optGeB o t = true ↔ ∃ a, o = some a ∧ t ≤ a := by
  cases o <;> simp [optGeB]

theorem strTruthy_eq_true {o : Option String} :
    strTruthy o = true ↔ ∃ s, o = some s ∧ s ≠ "" := by
  cases o <;> simp [strTruthy]

theorem mem_sortWines {sort_by sort_order : String} {l : List Wine} {w : Wine} :
    w ∈ sortWines sort_by sort_order l ↔ w ∈ l :=
  (List.perm_insertionSort _ l).mem_iff

theorem length_sortWines (sort_by sort_order : String) (l : List Wine) :
    (sortWines sort_by sort_order l).length = l.length :=
  (List.perm_insertionSort _ l).length_eq

theorem mem_listWines {today : Int} {wines : List Wine} {f : FilterSpec} {w : Wine} :
    w ∈ listWines today wines f ↔ w ∈ wines ∧ matchesFilters today f w = true := by
  unfold listWines
  rw [mem_sortWines, List.mem_filter]

theorem matchesFilters_ready_iff {today : Int} {f : FilterSpec} {w : Wine}
    (hf : f.drinking_window_status = some "ready_to_drink") :
    matchesFilters today f w = true ↔
      matchesBaseFilters f w = true ∧
        ∃ a b, w.drink_after_date = some a ∧ w.drink_before_date = some b ∧
          a ≤ today ∧ today ≤ b := by
  have h : matchesFilters today f w =
      (matchesBaseFilters f w &&
        (optLeB w.drink_after_date today && optGeB w.drink_before_date today)) := by
    unfold matchesFilters
    rw [hf]
    rfl
  rw [h, Bool.and_eq_true, Bool.and_eq_true, optLeB_eq_true, optGeB_eq_true]
  constructor
  · rintro ⟨hb, ⟨a, ha, hat⟩, ⟨b, hb2, htb⟩⟩
    exact ⟨hb, a, b, ha, hb2, hat, htb⟩
  · rintro ⟨hb, a, b, ha, hb2, hat, htb⟩
    exact ⟨hb, ⟨a, ha, hat⟩, ⟨b, hb2, htb⟩⟩

theorem find?_setWineQuantity {l : List Wine} {wine_id : Int} {q : Nat} {w : Wine}
    (h : l.find? (fun x => x.id == wine_id) = some w) :
    (setWineQuantity l wine_id q).find? (fun x => x.id == wine_id) =
      some { w with quantity := some q } := by
  unfold setWineQuantity
  rw [List.find?_map]
  have hpres : ((fun x : Wine => x.id == wine_id) ∘
      (fun x : Wine => if x.id == wine_id then { x with quantity := some q } else x)) =
      (fun x : Wine => x.id == wine_id) := by
    funext x
    cases hx : (x.id == wine_id) <;> simp [Function.comp, hx]
  rw [hpres, h]
  have hw : (w.id == wine_id) = true := by
    have := List.find?_some h
    simpa using this
  rw [show ((some w).map (fun x : Wine =>
      if x.id == wine_id then { x with quantity := some q } else x)) =
      some (if w.id == wine_id then { w with quantity := some q } else w) from rfl]
  rw [if_pos hw]

theorem dedup_length_eq_iff {l : List String} :
    l.dedup.length = l.length ↔ l.Nodup := by
  constructor
  · intro h
    have hs := List.dedup_sublist l
    rw [← hs.eq_of_length h]
    exact List.nodup_dedup l
  · intro h
    rw [List.dedup_eq_self.mpr h]

theorem pages_flatten {α : Type} (s : Nat) (hs : 0 < s) :
    ∀ (n : Nat) (l : List α), l.length = n →
      ((List.range ((l.length + s - 1) / s)).map
        (fun i => (l.drop (i * s)).take s)).flatten = l := by
  intro n
  induction n using Nat.strong_induction_on with
  | _ n ih =>
    intro l hl
    cases l with
    | nil =>
      have h0 : (([] : List α).length + s - 1) / s = 0 :=
        Nat.div_eq_of_lt (by simp; omega)
      rw [h0]
      simp
    | cons x xs =>
      have hcount : ((x :: xs).length + s - 1) / s = xs.length / s + 1 := by
        have h1 : (x :: xs).length + s - 1 = xs.length + s := by
          simp
        rw [h1, Nat.add_div_right _ hs]
      have hcount' : (((x :: xs).drop s).length + s - 1) / s = xs.length / s := by
        by_cases hcase : s ≤ xs.length + 1
        · have h2 : ((x :: xs).drop s).length + s - 1 = xs.length := by
            simp [List.length_drop]
            omega
          rw [h2]
        · have h2 : ((x :: xs).drop s).length + s - 1 = s - 1 := by
            simp [List.length_drop]
            omega
          rw [h2, Nat.div_eq_of_lt (by omega), Nat.div_eq_of_lt (by omega)]
      have hlt : ((x :: xs).drop s).length < n := by
        simp [List.length_drop] at hl ⊢
        omega
      have hih := ih ((x :: xs).drop s).length hlt ((x :: xs).drop s) rfl
      rw [hcount'] at hih
      rw [hcount, List.range_succ_eq_map, List.map_cons, List.flatten_cons,
        List.map_map]
      have hmap : ((fun i => ((x :: xs).drop (i * s)).take s) ∘ Nat.succ) =
          (fun i => (((x :: xs).drop s).drop (i * s)).take s) := by
        funext i
        simp only [Function.comp]
        rw [List.drop_drop]
        have hidx : Nat.succ i * s = s + i * s := by
          rw [Nat.succ_mul]
          omega
        rw [hidx]
      rw [hmap, hih]
      simp

theorem add_pred_div_eq_ceil (N s : Nat) (hs : 0 < s) :
    (N + s - 1) / s = ⌈(N : ℚ) / (s : ℚ)⌉₊ := by
  obtain ⟨q, r, hr, hN⟩ : ∃ q r, r < s ∧ N = s * q + r :=
    ⟨N / s, N % s, Nat.mod_lt _ hs, (Nat.div_add_mod N s).symm⟩
  have hsq : (0 : ℚ) < (s : ℚ) := by exact_mod_cast hs
  by_cases hr0 : r = 0
  · subst hr0
    have hL : (N + s - 1) / s = q := by
      have h1 : N + s - 1 = s * q + (s - 1) := by omega
      rw [h1, Nat.mul_add_div hs, Nat.div_eq_of_lt (by omega)]
      omega
    have hR : ⌈(N : ℚ) / (s : ℚ)⌉₊ = q := by
      have h2 : (N : ℚ) / (s : ℚ) = (q : ℚ) := by
        subst hN
        push_cast
        field_simp
      rw [h2, Nat.ceil_natCast]
    rw [hL, hR]
  · have hL : (N + s - 1) / s = q + 1 := by
      have h1 : N + s - 1 = s * (q + 1) + (r - 1) := by
        rw [Nat.mul_add, Nat.mul_one]
        omega
      rw [h1, Nat.mul_add_div hs, Nat.div_eq_of_lt (by omega)]
    have hR : ⌈(N : ℚ) / (s : ℚ)⌉₊ = q + 1 := by
      rw [Nat.ceil_eq_iff (by omega)]
      constructor
      · have h3 : ((q + 1 - 1 : Nat) : ℚ) = (q : ℚ) := by push_cast; ring
        rw [h3, lt_div_iff₀ hsq]
        subst hN
        push_cast
        have hrq : (1 : ℚ) ≤ (r : ℚ) := by
          exact_mod_cast Nat.one_le_iff_ne_zero.mpr hr0
        nlinarith
      · rw [div_le_iff₀ hsq]
        subst hN
        push_cast
        have hrs : (r : ℚ) ≤ (s : ℚ) := by exact_mod_cast hr.le
        nlinarith
    rw [hL, hR]

theorem dwsFilterEndpoint_unknown (today : Int) (w : Wine) (d : String)
    (h1 : d ≠ "ready_to_drink") (h2 : d ≠ "approaching_deadline")
    (h3 : d ≠ "not_ready") :
    dwsFilterEndpoint today (some d) w = true := by
  have hL : dwsFilterEndpoint today (some d) w =
      (if d = "" then true
       else if d = "ready_to_drink" then
         optLeB w.drink_after_date today && optGeB w.drink_before_date today
       else if d = "approaching_deadline" then
         optLeB w.drink_before_date (today + 30) && optGeB w.drink_before_date today
       else if d = "not_ready" then optGtB w.drink_after_date today
       else true) := rfl
  rw [hL]
  by_cases hde : d = ""
  · rw [if_pos hde]
  · rw [if_neg hde, if_neg h1, if_neg h2, if_neg h3]

theorem matchesFilters_unknown_dws (today : Int) (f : FilterSpec) (w : Wine)
    (d : String) (hd : f.drinking_window_status = some d)
    (h1 : d ≠ "ready_to_drink") (h2 : d ≠ "approaching_deadline")
    (h3 : d ≠ "not_ready") :
    matchesFilters today f w =
      matchesFilters today { f with drinking_window_status := none } w := by
  unfold matchesFilters
  rw [hd, dwsFilterEndpoint_unknown today w d h1 h2 h3]
  rw [show ({ f with drinking_window_status := none } : FilterSpec).drinking_window_status =
      (none : Option String) from rfl]
  rw [show dwsFilterEndpoint today none w = true from rfl]
  rw [show matchesBaseFilters { f with drinking_window_status := none } w =
      matchesBaseFilters f w from rfl]

theorem strip_none_eq_self {f : FilterSpec} (hf : f.drinking_window_status = none) :
    ({ f with drinking_window_status := none } : FilterSpec) = f := by
  rcases f with ⟨a, b, c, d, e, g, h⟩
  simp_all

/-! The claim theorems. -/

/-- C1: the claim says the paginated list's `total_items` comes from a count
query applying exactly the same filter predicate as the list query.  The code
evaluated at a failing input: with a single wine that has no window dates and
`drinking_window_status=ready_to_drink`, the endpoint reports
`total_items = 1` (the count call on line 150 of
`app/api/endpoints/wines.py` omits the `drinking_window_status` argument)
while the list query's own predicate matches 0 wines. -/
theorem count_query_drops_drinking_window_filter :
    listWinesPage 0 [datelessWine] 1 10 "id" "desc" readyFilter =
      .ok { items := [], page := 1, page_size := 10, total_items := 1,
            total_pages := 1 } ∧
    ([datelessWine].filter (matchesFilters 0 readyFilter)).length = 0 :=
  ⟨rfl, rfl⟩

/-- C2: the claim says both list operations exclude zero/NULL-quantity wines
whenever a `drinking_window_status` is supplied.  The code evaluated at a
failing input: a wine with `quantity = 0` inside its drinking window passes
the endpoints' `apply_filters` predicate and is returned by both list
operations, while the shared `apply_wine_filters` helper (which the endpoints
do not use) excludes it; with no status supplied, neither predicate filters
on quantity. -/
theorem zero_quantity_wine_returned_by_endpoints :
    matchesFilters 0 readyFilter zeroQtyWine = true ∧
    matchesWineFilters 0 readyFilter zeroQtyWine = false ∧
    listWines 0 [zeroQtyWine] readyFilter = [zeroQtyWine] ∧
    listWinesPage 0 [zeroQtyWine] 1 10 "id" "desc" readyFilter =
      .ok { items := [toListItem zeroQtyWine], page := 1, page_size := 10,
            total_items := 1, total_pages := 1 } ∧
    matchesFilters 0 noFilter zeroQtyWine = true ∧
    matchesWineFilters 0 noFilter zeroQtyWine = true :=
  ⟨rfl, rfl, rfl, rfl, rfl, rfl⟩

/-- C8 counterexample: the claim says a `drinking_window_status` outside the
three recognised values is rejected with a validation failure.  In fact the
page endpoint accepts `drinking_window_status=overdue` (it carries no
parameter constraint) and silently ignores it: the response equals the
response for no status at all, and no error is raised. -/
theorem invalid_status_accepted_and_ignored :
    listWinesPage 0 [zeroQtyWine] 1 10 "id" "desc" bogusFilter =
      listWinesPage 0 [zeroQtyWine] 1 10 "id" "desc" noFilter ∧
    (listWinesPage 0 [zeroQtyWine] 1 10 "id" "desc" bogusFilter).isOk = true :=
  ⟨rfl, rfl⟩

/-- C4: an adjustment that would drive the quantity negative, and a consume on
an empty wine, fail with the 400 `badRequest` outcome — distinct from the 404
`notFound` outcome — and return the state unchanged (no wine, log or
tasting-note write). -/
theorem negative_attempts_rejected :
    (∀ (st : DBState) (wid : Int) (p : WineQuantityUpdateRequest) (w : Wine),
       findWine st wid = some w →
       (w.quantity.getD 0 : Int) + p.quantity_change < 0 →
       updateWineQuantity st wid p =
         (st, .error (.badRequest "Quantity change would result in negative quantity"))) ∧
    (∀ (st : DBState) (wid : Int) (tr : Option TastingNoteCreateRequest) (w : Wine),
       findWine st wid = some w → w.quantity.getD 0 = 0 →
       consumeWine st wid tr =
         (st, .error (.badRequest "Cannot consume wine: quantity is already 0"))) ∧
    (∀ (st : DBState) (wid : Int) (p : WineQuantityUpdateRequest),
       findWine st wid = none →
       updateWineQuantity st wid p = (st, .error .notFound)) ∧
    (∀ (st : DBState) (wid : Int) (tr : Option TastingNoteCreateRequest),
       findWine st wid = none →
       consumeWine st wid tr = (st, .error .notFound)) ∧
    (∀ detail : String, ApiError.badRequest detail ≠ ApiError.notFound) := by
  refine ⟨?_, ?_, ?_, ?_, ?_⟩
  · intro st wid p w hfind hneg
    simp only [updateWineQuantity, hfind]
    rw [if_pos hneg]
  · intro st wid tr w hfind hq
    simp only [consumeWine, hfind, hq]
    rw [if_pos (Nat.le_refl 0)]
  · intro st wid p h
    simp only [updateWineQuantity, h]
  · intro st wid tr h
    simp only [consumeWine, h]
  · intro detail
    simp

/-- C4 witness: the rejections evaluated on concrete states: a -10 adjustment
on four bottles and a consume on an empty wine both return the unchanged
state with the 400 outcome; a missing wine id gives the 404 outcome. -/
theorem negative_attempts_rejected_witness :
    updateWineQuantity stBarolo 1 { quantity_change := -10, notes := none } =
      (stBarolo, .error (.badRequest "Quantity change would result in negative quantity")) ∧
    consumeWine stZero 1 none =
      (stZero, .error (.badRequest "Cannot consume wine: quantity is already 0")) ∧
    updateWineQuantity stBarolo 2 { quantity_change := 1, notes := none } =
      (stBarolo, .error .notFound) :=
  ⟨negative_attempts_rejected.1 stBarolo 1 _ wineBarolo rfl (by decide),
   negative_attempts_rejected.2.1 stZero 1 none zeroQtyWine rfl rfl,
   negative_attempts_rejected.2.2.1 stBarolo 2 _ rfl⟩

/-- C10: an adjustment with `quantity_change = 0` on any existing wine
succeeds, stores `some ((wine.quantity or 0))` (so a NULL quantity becomes 0)
and still appends exactly one `manual_adjustment` log row with delta 0 and
`new_quantity` equal to the current quantity. -/
theorem zero_delta_adjustment_logs_row :
    ∀ (st : DBState) (wid : Int) (w : Wine) (notes : Option String),
      findWine st wid = some w →
      updateWineQuantity st wid { quantity_change := 0, notes := notes } =
        ({ st with
            wines := setWineQuantity st.wines wid (w.quantity.getD 0),
            inventory_logs := st.inventory_logs ++
              [{ wine_id := wid, change_type := "manual_adjustment",
                 quantity_change := 0, new_quantity := (w.quantity.getD 0 : Int),
                 notes := notes }] },
         .ok { w with quantity := some (w.quantity.getD 0) }) := by
  intro st wid w notes hfind
  simp only [updateWineQuantity, hfind]
  rw [if_neg (by omega)]
  simp

/-- C10 witness: a zero-delta adjustment on a wine whose quantity is NULL
returns quantity 0 and appends the single zero-delta log row. -/
theorem zero_delta_adjustment_logs_row_witness :
    updateWineQuantity stNull 1 { quantity_change := 0, notes := some "audit" } =
      ({ stNull with
          wines := setWineQuantity stNull.wines 1 (nullQtyWine.quantity.getD 0),
          inventory_logs := stNull.inventory_logs ++
            [{ wine_id := 1, change_type := "manual_adjustment",
               quantity_change := 0,
               new_quantity := (nullQtyWine.quantity.getD 0 : Int),
               notes := some "audit" }] },
       .ok { nullQtyWine with quantity := some (nullQtyWine.quantity.getD 0) }) :=
  zero_delta_adjustment_logs_row stNull 1 nullQtyWine (some "audit") rfl

/-- C3: every successful adjust appends exactly one `manual_adjustment` log
row carrying the caller's delta and notes, and every successful consume
appends exactly one `consume` row with delta −1 and notes "Bottle consumed";
in both cases the row's `new_quantity` equals the previous quantity (0 when
NULL) plus the row's delta and equals the quantity stored on the wine
afterwards, and consume decrements the stored quantity by exactly one. -/
theorem mutation_appends_single_log :
    (∀ (st : DBState) (wid : Int) (p : WineQuantityUpdateRequest) (w : Wine)
       (st' : DBState) (w' : Wine),
       findWine st wid = some w →
       updateWineQuantity st wid p = (st', .ok w') →
       st'.inventory_logs = st.inventory_logs ++
         [{ wine_id := wid, change_type := "manual_adjustment",
            quantity_change := p.quantity_change,
            new_quantity := (w.quantity.getD 0 : Int) + p.quantity_change,
            notes := p.notes }] ∧
       w'.quantity = some ((w.quantity.getD 0 : Int) + p.quantity_change).toNat ∧
       (w'.quantity.getD 0 : Int) = (w.quantity.getD 0 : Int) + p.quantity_change ∧
       findWine st' wid = some w') ∧
    (∀ (st : DBState) (wid : Int) (tr : Option TastingNoteCreateRequest) (w : Wine)
       (st' : DBState) (res : WineConsumptionResponse),
       findWine st wid = some w →
       consumeWine st wid tr = (st', .ok res) →
       st'.inventory_logs = st.inventory_logs ++ [res.inventory_log] ∧
       res.inventory_log.change_type = "consume" ∧
       res.inventory_log.quantity_change = -1 ∧
       res.inventory_log.notes = some "Bottle consumed" ∧
       res.inventory_log.new_quantity = (w.quantity.getD 0 : Int) + (-1) ∧
       res.wine.quantity = some (w.quantity.getD 0 - 1) ∧
       (res.wine.quantity.getD 0 : Int) = res.inventory_log.new_quantity ∧
       findWine st' wid = some res.wine) := by
  constructor
  · intro st wid p w st' w' hfind hok
    simp only [updateWineQuantity, hfind] at hok
    by_cases hneg : ((w.quantity.getD 0 : Int) + p.quantity_change) < 0
    · rw [if_pos hneg] at hok
      simp at hok
    · rw [if_neg hneg] at hok
      have h1 := congrArg Prod.fst hok
      have h2 := congrArg Prod.snd hok
      simp only at h1 h2
      injection h2 with h2
      subst h1
      subst h2
      refine ⟨rfl, rfl, ?_, ?_⟩
      · simp [Int.toNat_of_nonneg (not_lt.mp hneg)]
      · exact find?_setWineQuantity hfind
  · intro st wid tr w st' res hfind hok
    simp only [consumeWine, hfind] at hok
    by_cases hz : w.quantity.getD 0 ≤ 0
    · rw [if_pos hz] at hok
      simp at hok
    · rw [if_neg hz] at hok
      have h1 := congrArg Prod.fst hok
      have h2 := congrArg Prod.snd hok
      simp only at h1 h2
      injection h2 with h2
      subst h1
      subst h2
      have hpos : 1 ≤ w.quantity.getD 0 := by omega
      refine ⟨rfl, rfl, rfl, rfl, ?_, rfl, ?_, ?_⟩
      · show ((w.quantity.getD 0 - 1 : Nat) : Int) = (w.quantity.getD 0 : Int) + (-1)
        omega
      · show ((w.quantity.getD 0 - 1 : Nat) : Int) = ((w.quantity.getD 0 - 1 : Nat) : Int)
        rfl
      · exact find?_setWineQuantity hfind

/-- C3 witness: the log-row invariant evaluated on a concrete −2 adjustment
and a concrete consume of one of four bottles. -/
theorem mutation_appends_single_log_witness :
    (updateWineQuantity stBarolo 1
        { quantity_change := -2, notes := some "sold two" }).1.inventory_logs =
      stBarolo.inventory_logs ++
        [{ wine_id := 1, change_type := "manual_adjustment", quantity_change := -2,
           new_quantity := (wineBarolo.quantity.getD 0 : Int) + (-2),
           notes := some "sold two" }] ∧
    (consumeWine stBarolo 1 none).1.inventory_logs =
      stBarolo.inventory_logs ++ [consumeLog 1 3] :=
  ⟨(mutation_appends_single_log.1 stBarolo 1
      { quantity_change := -2, notes := some "sold two" } wineBarolo _ _ rfl rfl).1,
   (mutation_appends_single_log.2 stBarolo 1 none wineBarolo _ _ rfl rfl).1⟩

/-- C7: on a successful consume, a tasting note (with `user_id = 1` and the
payload's rating and notes) is appended exactly when the payload carries a
non-null rating or non-empty notes, and the response's `tasting_note` field
is that row (or null when none was created). -/
theorem tasting_note_iff_payload :
    ∀ (st : DBState) (wid : Int) (tr : Option TastingNoteCreateRequest) (w : Wine)
      (st' : DBState) (res : WineConsumptionResponse),
      findWine st wid = some w →
      consumeWine st wid tr = (st', .ok res) →
      (∀ r, tr = some r → (r.rating ≠ none ∨ ∃ s, r.notes = some s ∧ s ≠ "") →
         res.tasting_note = some { wine_id := wid, user_id := 1, rating := r.rating,
                                   notes := r.notes } ∧
         st'.tasting_notes = st.tasting_notes ++
           [{ wine_id := wid, user_id := 1, rating := r.rating, notes := r.notes }]) ∧
      ((tr = none ∨ ∃ r, tr = some r ∧ r.rating = none ∧
          (r.notes = none ∨ r.notes = some "")) →
         res.tasting_note = none ∧ st'.tasting_notes = st.tasting_notes) := by
  intro st wid tr w st' res hfind hok
  simp only [consumeWine, hfind] at hok
  by_cases hz : w.quantity.getD 0 ≤ 0
  · rw [if_pos hz] at hok
    simp at hok
  · rw [if_neg hz] at hok
    have h1 := congrArg Prod.fst hok
    have h2 := congrArg Prod.snd hok
    simp only at h1 h2
    injection h2 with h2
    subst h1
    subst h2
    constructor
    · rintro r rfl hcar
      have hcond : (r.rating.isSome || strTruthy r.notes) = true := by
        rcases hcar with h | h
        · simp [Option.isSome_iff_ne_none.mpr h]
        · rw [Bool.or_eq_true]
          exact Or.inr (strTruthy_eq_true.mpr h)
      constructor
      · show mkTastingNote wid (some r) = _
        simp only [mkTastingNote]
        rw [if_pos hcond]
      · show st.tasting_notes ++ (mkTastingNote wid (some r)).toList = _
        simp only [mkTastingNote]
        rw [if_pos hcond]
        rfl
    · intro hno
      have hnote : mkTastingNote wid tr = none := by
        rcases hno with rfl | ⟨r, rfl, hr, hn⟩
        · rfl
        · simp only [mkTastingNote]
          rw [if_neg ?_]
          rw [Bool.or_eq_true]
          rintro (h | h)
          · rw [hr] at h
            simp at h
          · rcases strTruthy_eq_true.mp h with ⟨s, hs, hne⟩
            rcases hn with h2 | h2
            · rw [h2] at hs
              simp at hs
            · rw [h2] at hs
              simp at hs
              exact hne hs.symm
      constructor
      · exact hnote
      · show st.tasting_notes ++ (mkTastingNote wid tr).toList = st.tasting_notes
        rw [hnote]
        simp

/-- C7 witness: consuming with `{rating: 8}` appends the tasting-note row with
`user_id = 1` and rating 8; consuming with no payload leaves the tasting-note
table unchanged. -/
theorem tasting_note_iff_payload_witness :
    (consumeWine stBarolo 1
        (some { rating := some 8, notes := none })).1.tasting_notes =
      stBarolo.tasting_notes ++
        [{ wine_id := 1, user_id := 1, rating := some 8, notes := none }] ∧
    (consumeWine stBarolo 1 none).1.tasting_notes = stBarolo.tasting_notes :=
  ⟨((tasting_note_iff_payload stBarolo 1 (some { rating := some 8, notes := none })
      wineBarolo _ _ rfl rfl).1 { rating := some 8, notes := none } rfl
      (Or.inl (by simp))).2,
   ((tasting_note_iff_payload stBarolo 1 none wineBarolo _ _ rfl rfl).2
      (Or.inl rfl)).2⟩

/-- C6: with `drinking_window_status=ready_to_drink` the list operation
returns a wine only if both window dates are non-null (an SQL comparison
against NULL never matches) and `drink_after_date ≤ today ≤
drink_before_date`; a wine with dates `today − 1` / `today + 1` and three
bottles is returned, and a wine missing either date never is. -/
theorem ready_to_drink_requires_dates :
    (∀ (today : Int) (f : FilterSpec) (w : Wine),
       f.drinking_window_status = some "ready_to_drink" →
       matchesFilters today f w = true →
       ∃ a b, w.drink_after_date = some a ∧ w.drink_before_date = some b ∧
         a ≤ today ∧ today ≤ b) ∧
    (∀ (today : Int) (wines : List Wine) (f : FilterSpec) (w : Wine),
       f.drinking_window_status = some "ready_to_drink" →
       w ∈ listWines today wines f →
       ∃ a b, w.drink_after_date = some a ∧ w.drink_before_date = some b ∧
         a ≤ today ∧ today ≤ b) ∧
    (∀ today : Int,
       listWines today [wineInWindow today] readyFilter = [wineInWindow today]) ∧
    (∀ (today : Int) (wines : List Wine) (w : Wine),
       w.drink_after_date = none ∨ w.drink_before_date = none →
       w ∉ listWines today wines readyFilter) := by
  refine ⟨?_, ?_, ?_, ?_⟩
  · intro today f w hf h
    exact ((matchesFilters_ready_iff hf).mp h).2
  · intro today wines f w hf hmem
    exact ((matchesFilters_ready_iff hf).mp (mem_listWines.mp hmem).2).2
  · intro today
    have hm : matchesFilters today readyFilter (wineInWindow today) = true := by
      rw [matchesFilters_ready_iff rfl]
      exact ⟨rfl, today - 1, today + 1, rfl, rfl, by omega, by omega⟩
    simp [listWines, sortWines, List.filter_cons, hm, List.insertionSort]
  · intro today wines w hdate hmem
    obtain ⟨a, b, ha, hb, _, _⟩ :=
      ((matchesFilters_ready_iff rfl).mp (mem_listWines.mp hmem).2).2
    rcases hdate with h | h
    · rw [h] at ha
      cases ha
    · rw [h] at hb
      cases hb

/-- C6 witness: on day 0 the in-window three-bottle wine is returned, and the
dateless wine is never returned by a `ready_to_drink` query. -/
theorem ready_to_drink_requires_dates_witness :
    listWines 0 [wineInWindow 0] readyFilter = [wineInWindow 0] ∧
    datelessWine ∉ listWines 0 [datelessWine] readyFilter :=
  ⟨ready_to_drink_requires_dates.2.2.1 0,
   ready_to_drink_requires_dates.2.2.2 0 [datelessWine] datelessWine (Or.inl rfl)⟩

/-- C8 amended: a `sort_by` outside the whitelist or a `sort_order` outside
`{asc, desc}` is rejected with an input validation failure (never an internal
error); a `drinking_window_status` outside the three recognised values is NOT
rejected: the request succeeds and behaves exactly as if no status had been
supplied. -/
theorem sort_params_validated_status_ignored :
    (∀ (today : Int) (wines : List Wine) (page page_size : Nat) (sb so : String)
       (f : FilterSpec),
       validSortBy sb = false → 1 ≤ page → 1 ≤ page_size → page_size ≤ 100 →
       listWinesPage today wines page page_size sb so f =
         .error (.validationError
           "sort_by must be one of id, name, producer, vintage, type")) ∧
    (∀ (today : Int) (wines : List Wine) (page page_size : Nat) (sb so : String)
       (f : FilterSpec),
       validSortBy sb = true → validSortOrder so = false →
       1 ≤ page → 1 ≤ page_size → page_size ≤ 100 →
       listWinesPage today wines page page_size sb so f =
         .error (.validationError "sort_order must be asc or desc")) ∧
    (∀ (today : Int) (wines : List Wine) (page page_size : Nat) (sb so : String)
       (f : FilterSpec) (d : String),
       f.drinking_window_status = some d → d ≠ "ready_to_drink" →
       d ≠ "approaching_deadline" → d ≠ "not_ready" →
       listWinesPage today wines page page_size sb so f =
         listWinesPage today wines page page_size sb so
           { f with drinking_window_status := none }) := by
  refine ⟨?_, ?_, ?_⟩
  · intro today wines page page_size sb so f hsb hp hs1 hs2
    unfold listWinesPage
    rw [if_neg (by omega), if_neg (by omega), if_pos (by rw [hsb]; rfl)]
  · intro today wines page page_size sb so f hsb hso hp hs1 hs2
    unfold listWinesPage
    rw [if_neg (by omega), if_neg (by omega), if_neg (by rw [hsb]; simp),
      if_pos (by rw [hso]; rfl)]
  · intro today wines page page_size sb so f d hd h1 h2 h3
    unfold listWinesPage
    have hfilter : wines.filter (matchesFilters today f) =
        wines.filter (matchesFilters today
          { f with drinking_window_status := none }) :=
      List.filter_congr (fun w _ => matchesFilters_unknown_dws today f w d hd h1 h2 h3)
    rw [hfilter]

/-- C8 amended witness: `sort_by=rating` and `sort_order=down` are rejected as
validation failures, while `drinking_window_status=overdue` is accepted and
treated as no status at all. -/
theorem sort_params_validated_status_ignored_witness :
    listWinesPage 0 [zeroQtyWine] 1 10 "rating" "desc" noFilter =
      .error (.validationError
        "sort_by must be one of id, name, producer, vintage, type") ∧
    listWinesPage 0 [zeroQtyWine] 1 10 "id" "down" noFilter =
      .error (.validationError "sort_order must be asc or desc") ∧
    listWinesPage 0 [zeroQtyWine] 1 10 "id" "desc" bogusFilter =
      listWinesPage 0 [zeroQtyWine] 1 10 "id" "desc"
        { bogusFilter with drinking_window_status := none } :=
  ⟨sort_params_validated_status_ignored.1 0 [zeroQtyWine] 1 10 "rating" "desc"
     noFilter rfl (by omega) (by omega) (by omega),
   sort_params_validated_status_ignored.2.1 0 [zeroQtyWine] 1 10 "id" "down"
     noFilter rfl rfl (by omega) (by omega) (by omega),
   sort_params_validated_status_ignored.2.2 0 [zeroQtyWine] 1 10 "id" "desc"
     bogusFilter "overdue" rfl (by decide) (by decide) (by decide)⟩

/-- C5 counterexample: the claim says `total_pages = ceil(N/s)` where `N` is
the number of wines matched by the filter.  With
`drinking_window_status=ready_to_drink`, one dateless wine and `page_size = 1`
the filter matches `N = 0` wines, so `ceil(N/s) = 0`, yet the endpoint
reports `total_pages = 1` (its count ignores the drinking-window filter). -/
theorem pagination_total_pages_counterexample :
    listWinesPage 0 [datelessWine] 1 1 "id" "desc" readyFilter =
      .ok { items := [], page := 1, page_size := 1, total_items := 1,
            total_pages := 1 } ∧
    ([datelessWine].filter (matchesFilters 0 readyFilter)).length = 0 ∧
    ¬ ((1 : Nat) =
        (([datelessWine].filter (matchesFilters 0 readyFilter)).length + 1 - 1) / 1) :=
  ⟨rfl, rfl, by decide⟩

/-- C5 amended: for any filter with NO `drinking_window_status` (so the count
query agrees with the list query — see C1) and any `page_size` in 1..100, the
page endpoint reports `total_items = N`, `total_pages = (N + s − 1) / s`
(which equals `⌈N/s⌉`), serves page `p` as the slice at offset `(p−1)·s` of
length at most `s` of the full filtered sorted projection
(`pageItemsList`), and concatenating pages `1..total_pages` in order
reproduces that projection exactly, with no duplicates or omissions. -/
theorem pagination_law_no_status_filter
    (today : Int) (wines : List Wine) (f : FilterSpec) (sb so : String)
    (s p : Nat) (hf : f.drinking_window_status = none)
    (hsb : validSortBy sb = true) (hso : validSortOrder so = true)
    (hp : 1 ≤ p) (hs1 : 1 ≤ s) (hs2 : s ≤ 100) :
    listWinesPage today wines p s sb so f =
      .ok { items :=
              ((pageItemsList today wines sb so f).drop ((p - 1) * s)).take s,
            page := p, page_size := s,
            total_items := (pageItemsList today wines sb so f).length,
            total_pages :=
              ((pageItemsList today wines sb so f).length + s - 1) / s } ∧
    ((pageItemsList today wines sb so f).length + s - 1) / s =
      ⌈((pageItemsList today wines sb so f).length : ℚ) / (s : ℚ)⌉₊ ∧
    ((List.range (((pageItemsList today wines sb so f).length + s - 1) / s)).map
      (fun i => ((pageItemsList today wines sb so f).drop (i * s)).take s)).flatten =
      pageItemsList today wines sb so f := by
  refine ⟨?_, add_pred_div_eq_ceil _ s (by omega), ?_⟩
  · unfold listWinesPage
    rw [if_neg (by omega), if_neg (by omega), if_neg (by rw [hsb]; simp),
      if_neg (by rw [hso]; simp), strip_none_eq_self hf]
    simp only [pageItemsList, List.length_map, length_sortWines, List.map_take,
      List.map_drop]
  · exact pages_flatten s (by omega) (pageItemsList today wines sb so f).length
      (pageItemsList today wines sb so f) rfl

/-- C5 amended witness: the pagination law evaluated at a concrete one-wine
state with `page = page_size = 1` and the default sort. -/
theorem pagination_law_no_status_filter_witness :
    listWinesPage 0 [wineBarolo] 1 1 "id" "desc" noFilter =
      .ok { items :=
              ((pageItemsList 0 [wineBarolo] "id" "desc" noFilter).drop
                ((1 - 1) * 1)).take 1,
            page := 1, page_size := 1,
            total_items := (pageItemsList 0 [wineBarolo] "id" "desc" noFilter).length,
            total_pages :=
              ((pageItemsList 0 [wineBarolo] "id" "desc" noFilter).length + 1 - 1) / 1 } ∧
    ((pageItemsList 0 [wineBarolo] "id" "desc" noFilter).length + 1 - 1) / 1 =
      ⌈((pageItemsList 0 [wineBarolo] "id" "desc" noFilter).length : ℚ) / (1 : ℚ)⌉₊ ∧
    ((List.range
        (((pageItemsList 0 [wineBarolo] "id" "desc" noFilter).length + 1 - 1) / 1)).map
      (fun i => ((pageItemsList 0 [wineBarolo] "id" "desc" noFilter).drop (i * 1)).take 1)).flatten =
      pageItemsList 0 [wineBarolo] "id" "desc" noFilter :=
  pagination_law_no_status_filter 0 [wineBarolo] noFilter "id" "desc" 1 1 rfl rfl rfl
    (by omega) (by omega) (by omega)

/-- Evaluation path of `validateWineCreate` reaching the duplicate-variety
rejection. -/
theorem validateWineCreate_dup_error (r : WineCreateRequest)
    (gcs : List GrapeCompositionSchema)
    (hfc : fieldConstraintsOk r = true)
    (hdate : (match r.drink_after_date, r.drink_before_date with
              | some a, some b => decide (b ≤ a)
              | _, _ => false) = false)
    (hgc : r.grape_composition = some gcs) (hlen : ¬ (gcs.length = 0))
    (hsum : ¬ (|(gcs.map (fun g => g.percentage)).sum - 100| > (1 / 2 : ℚ)))
    (hdup : (gcs.map (fun g => normVariety g.grape_variety)).dedup.length ≠
            (gcs.map (fun g => normVariety g.grape_variety)).length) :
    validateWineCreate r =
      .error "Duplicate grape varieties are not allowed in grape_composition" := by
  unfold validateWineCreate
  rw [hfc, if_neg (by simp), hdate, if_neg (by simp)]
  simp only [hgc]
  rw [if_neg hlen, if_neg hsum, if_pos hdup]

/-- C9 counterexample: the claim says a composition summing within 100 ± 0.5
whose varieties are case-insensitively distinct passes validation.  The
request with varieties `" Merlot"` and `"Merlot"` (distinct even after
lowercasing, sum exactly 100) is nevertheless rejected, because the validator
also strips whitespace before comparing (`strip().lower()`). -/
theorem case_distinct_varieties_still_rejected :
    ((dupeVarietyRequest.grape_composition.getD []).map
        (fun g => lowerStr g.grape_variety)).Nodup ∧
    ((dupeVarietyRequest.grape_composition.getD []).map
        (fun g => g.percentage)).sum = 100 ∧
    validateWineCreate dupeVarietyRequest =
      .error "Duplicate grape varieties are not allowed in grape_composition" := by
  refine ⟨by decide, ?_, ?_⟩
  · show ((50 : ℚ) + (50 + 0)) = 100
    norm_num
  · have hfc : fieldConstraintsOk dupeVarietyRequest = true := by
      simp only [fieldConstraintsOk, dupeVarietyRequest, optLenLe, List.all_cons,
        List.all_nil, Bool.and_eq_true, decide_eq_true_eq]
      norm_num
      decide
    refine validateWineCreate_dup_error dupeVarietyRequest _ hfc rfl rfl
      (by decide) ?_ (by decide)
    show ¬ (|(50 : ℚ) + (50 + 0) - 100| > (1 / 2 : ℚ))
    norm_num

/-- C9 amended: creation validation rejects, before any write,
`drink_after_date ≥ drink_before_date` when both dates are present, every
non-empty composition whose percentage sum lies outside 100 ± 0.5, and every
non-empty composition containing two varieties equal after stripping
whitespace and lowercasing (case-insensitive equality is the special case
with no surrounding whitespace); a request passing the field constraints
whose dates are strictly ordered and whose non-empty composition sums within
100 ± 0.5 with varieties pairwise distinct after strip+lower is accepted. -/
theorem create_validation_checks :
    (∀ (r : WineCreateRequest) (a b : Int),
       r.drink_after_date = some a → r.drink_before_date = some b → b ≤ a →
       (validateWineCreate r).isOk = false) ∧
    (∀ (r : WineCreateRequest) (gcs : List GrapeCompositionSchema),
       r.grape_composition = some gcs → gcs ≠ [] →
       |(gcs.map (fun g => g.percentage)).sum - 100| > (1 / 2 : ℚ) →
       (validateWineCreate r).isOk = false) ∧
    (∀ (r : WineCreateRequest) (gcs : List GrapeCompositionSchema),
       r.grape_composition = some gcs →
       ¬ (gcs.map (fun g => normVariety g.grape_variety)).Nodup →
       (validateWineCreate r).isOk = false) ∧
    (∀ r : WineCreateRequest,
       fieldConstraintsOk r = true →
       (∀ a b, r.drink_after_date = some a → r.drink_before_date = some b → a < b) →
       (∀ gcs, r.grape_composition = some gcs → gcs ≠ [] →
          |(gcs.map (fun g => g.percentage)).sum - 100| ≤ (1 / 2 : ℚ) ∧
          (gcs.map (fun g => normVariety g.grape_variety)).Nodup) →
       validateWineCreate r = .ok r) := by
  refine ⟨?_, ?_, ?_, ?_⟩
  · intro r a b ha hb hle
    unfold validateWineCreate
    split
    · rfl
    · split
      · rfl
      · rename_i hcond
        exfalso
        apply hcond
        simp only [ha, hb]
        simp [hle]
  · intro r gcs hgc hne hsum
    unfold validateWineCreate
    split
    · rfl
    · split
      · rfl
      · simp only [hgc]
        rw [if_neg (by simp [hne]), if_pos hsum]
        rfl
  · intro r gcs hgc hdup
    unfold validateWineCreate
    split
    · rfl
    · split
      · rfl
      · simp only [hgc]
        have hne : ¬ (gcs.length = 0) := by
          intro h0
          rw [List.length_eq_zero] at h0
          subst h0
          simp at hdup
        rw [if_neg hne]
        by_cases hsum : |(gcs.map (fun g => g.percentage)).sum - 100| > (1 / 2 : ℚ)
        · rw [if_pos hsum]
          rfl
        · rw [if_neg hsum,
            if_pos (fun he => hdup (dedup_length_eq_iff.mp he))]
          rfl
  · intro r hfc hdate hcomp
    unfold validateWineCreate
    rw [hfc, if_neg (by simp)]
    have hd : (match r.drink_after_date, r.drink_before_date with
               | some a, some b => decide (b ≤ a)
               | _, _ => false) = false := by
      rcases hafter : r.drink_after_date with _ | a
      · simp
      · rcases hbefore : r.drink_before_date with _ | b
        · simp
        · simp only [decide_eq_false_iff_not, not_le]
          exact hdate a b hafter hbefore
    rw [hd, if_neg (by simp)]
    rcases hgc : r.grape_composition with _ | gcs
    · rfl
    · simp only []
      by_cases hlen : gcs.length = 0
      · rw [if_pos hlen]
      · obtain ⟨hsum, hdup⟩ := hcomp gcs hgc (by simpa [List.length_eq_zero] using hlen)
        rw [if_neg hlen, if_neg (not_lt.mpr hsum),
          if_neg (not_not_intro (dedup_length_eq_iff.mpr hdup))]

/-- C9 amended witness: the valid Nebbiolo request is accepted; the request
summing to 94 is rejected. -/
theorem create_validation_checks_witness :
    validateWineCreate goodCreateRequest = .ok goodCreateRequest ∧
    (validateWineCreate sum94Request).isOk = false := by
  constructor
  · refine create_validation_checks.2.2.2 goodCreateRequest ?_ ?_ ?_
    · simp only [fieldConstraintsOk, goodCreateRequest, optLenLe, List.all_cons,
        List.all_nil, Bool.and_eq_true, decide_eq_true_eq]
      norm_num
      decide
    · intro a b ha hb
      cases ha
    · rintro gcs hg hne
      injection hg with hg
      subst hg
      constructor
      · show |(100 : ℚ) + 0 - 100| ≤ (1 / 2 : ℚ)
        norm_num
      · decide
  · refine create_validation_checks.2.1 sum94Request
      [{ grape_variety := "Nebbiolo", percentage := 94 }] rfl (by decide) ?_
    show |(94 : ℚ) + 0 - 100| > (1 / 2 : ℚ)
    norm_num
